import Mathlib

set_option maxHeartbeats 1000000

namespace AuthCore

/- Shallow embedding of the authentication / abuse-prevention core of the
backend (TypeScript sources under src/).  Machine time is modelled as a `Nat`
of milliseconds passed explicitly to each operation in place of `Date.now()`. -/

/-! ## Abuse Tracker (src/middleware/errorHandler.ts, `suspiciousActivities`) -/

/-- One entry of the `suspiciousActivities` map:
`{ count: number; lastAttempt: Date; blocked: boolean; blockUntil?: Date }`. -/
structure Activity where
  count : Nat
  lastAttempt : Nat
  blocked : Bool
  blockUntil : Option Nat
deriving Repr, DecidableEq

/-- The in-memory `Map<string, Activity>` keyed by identifier string. -/
def AbuseMap : Type := String → Option Activity

def AbuseMap.empty : AbuseMap := fun _ => none

def AbuseMap.set (m : AbuseMap) (k : String) (a : Activity) : AbuseMap :=
  fun k2 => if k2 = k then some a else m k2

def AbuseMap.del (m : AbuseMap) (k : String) : AbuseMap :=
  fun k2 => if k2 = k then none else m k2

/-- Environment configuration read by `trackSuspiciousActivity`:
`SUSPICIOUS_LOGIN_THRESHOLD` (default 5) and `ACCOUNT_LOCKOUT_DURATION`
(default 900000 ms = 15 minutes). -/
structure AbuseConfig where
  threshold : Nat
  lockoutDuration : Nat
deriving Repr, DecidableEq

def defaultAbuseConfig : AbuseConfig := { threshold := 5, lockoutDuration := 900000 }

def dayMs : Nat := 24 * 60 * 60 * 1000

/-- Embedding of `trackSuspiciousActivity(identifier, ...)`: fetch-or-default,
increment count, stamp `lastAttempt`, set `blocked`/`blockUntil` when the
threshold is crossed on an unblocked record, store the record, then the
final staleness check (which deletes records whose `lastAttempt` is older
than 24 hours; `lastAttempt` was just set to `now`, so it never fires). -/
def trackSuspiciousActivity (cfg : AbuseConfig) (now : Nat) (identifier : String)
    (m : AbuseMap) : AbuseMap :=
  let a0 := (m identifier).getD { count := 0, lastAttempt := now, blocked := false, blockUntil := none }
  let a1 : Activity := { a0 with count := a0.count + 1, lastAttempt := now }
  let a2 : Activity :=
    if cfg.threshold ≤ a1.count ∧ a1.blocked = false then
      { a1 with blocked := true, blockUntil := some (now + cfg.lockoutDuration) }
    else a1
  let m1 := m.set identifier a2
  if dayMs < now - a2.lastAttempt then m1.del identifier else m1

/-- Embedding of `isBlocked(identifier)`: returns the boolean result together
with the (possibly self-healed) map, since expiry of the block resets the
record as a side effect. -/
def isBlocked (now : Nat) (identifier : String) (m : AbuseMap) : Bool × AbuseMap :=
  match m identifier with
  | none => (false, m)
  | some a =>
    if a.blocked = false ∨ a.blockUntil = none then (false, m)
    else
      match a.blockUntil with
      | none => (false, m)
      | some bu =>
        if bu < now then
          (false, m.set identifier { a with blocked := false, blockUntil := none, count := 0 })
        else (true, m)

/-- Run a list of `trackSuspiciousActivity` events `(now, identifier)` in order. -/
def runEvents (cfg : AbuseConfig) (evs : List (Nat × String)) (m : AbuseMap) : AbuseMap :=
  evs.foldl (fun m2 e => trackSuspiciousActivity cfg e.1 e.2 m2) m

/-- The pure record-level effect of one `trackSuspiciousActivity` call. -/
def stepActivity (cfg : AbuseConfig) (now : Nat) (a? : Option Activity) : Activity :=
  let a0 := a?.getD { count := 0, lastAttempt := now, blocked := false, blockUntil := none }
  let a1 : Activity := { a0 with count := a0.count + 1, lastAttempt := now }
  if cfg.threshold ≤ a1.count ∧ a1.blocked = false then
    { a1 with blocked := true, blockUntil := some (now + cfg.lockoutDuration) }
  else a1

theorem track_get (cfg : AbuseConfig) (now : Nat) (id : String) (m : AbuseMap) :
    (trackSuspiciousActivity cfg now id m) id = some (stepActivity cfg now (m id)) := by
  unfold trackSuspiciousActivity
  rw [if_neg (by split <;> simp)]
  simp [AbuseMap.set, stepActivity]

theorem track_ne (cfg : AbuseConfig) (now : Nat) (k id : String) (m : AbuseMap)
    (h : id ≠ k) : (trackSuspiciousActivity cfg now k m) id = m id := by
  unfold trackSuspiciousActivity
  rw [if_neg (by split <;> simp)]
  simp [AbuseMap.set, h]

theorem stepActivity_none (cfg : AbuseConfig) (t : Nat) :
    stepActivity cfg t none =
      if cfg.threshold ≤ 1 then
        { count := 1, lastAttempt := t, blocked := true, blockUntil := some (t + cfg.lockoutDuration) }
      else { count := 1, lastAttempt := t, blocked := false, blockUntil := none } := by
  simp [stepActivity]

theorem stepActivity_unblocked (cfg : AbuseConfig) (t n la : Nat) :
    stepActivity cfg t (some { count := n, lastAttempt := la, blocked := false, blockUntil := none }) =
      if cfg.threshold ≤ n + 1 then
        { count := n + 1, lastAttempt := t, blocked := true, blockUntil := some (t + cfg.lockoutDuration) }
      else { count := n + 1, lastAttempt := t, blocked := false, blockUntil := none } := by
  simp [stepActivity]

theorem stepActivity_blocked (cfg : AbuseConfig) (t n la bu : Nat) :
    stepActivity cfg t (some { count := n, lastAttempt := la, blocked := true, blockUntil := some bu }) =
      { count := n + 1, lastAttempt := t, blocked := true, blockUntil := some bu } := by
  simp [stepActivity]

/-- Invariant of the abuse tracker: running any sequence of tracking events
over a map where `id` has no record yet leaves `id`'s record in one of three
shapes, fully determined by how many of the events targeted `id`: absent
(zero events), unblocked with `count` equal to the number of events (below
threshold), or blocked with a `blockUntil` (at or above threshold). -/
theorem runEvents_id_spec (cfg : AbuseConfig) (id : String)
    (evs : List (Nat × String)) (m : AbuseMap) (hm : m id = none) :
    ((evs.filter (fun x => x.2 == id)).length = 0 ∧ (runEvents cfg evs m) id = none)
    ∨ (∃ la, 0 < (evs.filter (fun x => x.2 == id)).length ∧
        (evs.filter (fun x => x.2 == id)).length < cfg.threshold ∧
        (runEvents cfg evs m) id =
          some { count := (evs.filter (fun x => x.2 == id)).length, lastAttempt := la,
                 blocked := false, blockUntil := none })
    ∨ (∃ la bu, cfg.threshold ≤ (evs.filter (fun x => x.2 == id)).length ∧
        (runEvents cfg evs m) id =
          some { count := (evs.filter (fun x => x.2 == id)).length, lastAttempt := la,
                 blocked := true, blockUntil := some bu }) := by
  induction evs using List.reverseRecOn with
  | nil =>
    left
    simpa [runEvents] using hm
  | append_singleton evs e ih =>
    have hrun : runEvents cfg (evs ++ [e]) m
        = trackSuspiciousActivity cfg e.1 e.2 (runEvents cfg evs m) := by
      simp [runEvents, List.foldl_append]
    by_cases he : e.2 = id
    · subst he
      have hv := track_get cfg e.1 e.2 (runEvents cfg evs m)
      have hlen : ((evs ++ [e]).filter (fun x => x.2 == e.2)).length
          = (evs.filter (fun x => x.2 == e.2)).length + 1 := by
        simp [List.filter_append]
      rcases ih with ⟨hn, hnone⟩ | ⟨la, hpos, hlt, hsome⟩ | ⟨la, bu, hge, hsome⟩
      · rw [hnone, stepActivity_none] at hv
        by_cases h1 : cfg.threshold ≤ 1
        · right; right
          refine ⟨e.1, e.1 + cfg.lockoutDuration, ?_, ?_⟩
          · rw [hlen, hn]; exact h1
          · rw [hrun, hlen, hn]
            rw [if_pos h1] at hv
            exact hv
        · right; left
          refine ⟨e.1, ?_, ?_, ?_⟩
          · rw [hlen]; omega
          · rw [hlen, hn]; omega
          · rw [hrun, hlen, hn]
            rw [if_neg h1] at hv
            exact hv
      · rw [hsome, stepActivity_unblocked] at hv
        by_cases h2 : cfg.threshold ≤ (evs.filter (fun x => x.2 == e.2)).length + 1
        · right; right
          refine ⟨e.1, e.1 + cfg.lockoutDuration, ?_, ?_⟩
          · rw [hlen]; exact h2
          · rw [hrun, hlen]
            rw [if_pos h2] at hv
            exact hv
        · right; left
          refine ⟨e.1, ?_, ?_, ?_⟩
          · rw [hlen]; omega
          · rw [hlen]; omega
          · rw [hrun, hlen]
            rw [if_neg h2] at hv
            exact hv
      · rw [hsome, stepActivity_blocked] at hv
        right; right
        refine ⟨e.1, bu, ?_, ?_⟩
        · rw [hlen]; omega
        · rw [hrun, hlen]
          exact hv
    · have hv : (runEvents cfg (evs ++ [e]) m) id = (runEvents cfg evs m) id := by
        rw [hrun]
        exact track_ne cfg e.1 e.2 id _ (fun hh => he hh.symm)
      have hlen : ((evs ++ [e]).filter (fun x => x.2 == id)).length
          = (evs.filter (fun x => x.2 == id)).length := by
        simp [List.filter_append, he]
      rcases ih with ⟨hn, hnone⟩ | ⟨la, hpos, hlt, hsome⟩ | ⟨la, bu, hge, hsome⟩
      · left; rw [hlen, hv]; exact ⟨hn, hnone⟩
      · right; left; exact ⟨la, by rw [hlen]; exact hpos, by rw [hlen]; exact hlt, by rw [hlen, hv]; exact hsome⟩
      · right; right; exact ⟨la, bu, by rw [hlen]; exact hge, by rw [hlen, hv]; exact hsome⟩

theorem isBlocked_true (now : Nat) (id : String) (m : AbuseMap) (n la bu : Nat)
    (h : m id = some { count := n, lastAttempt := la, blocked := true, blockUntil := some bu })
    (hnow : now ≤ bu) :
    isBlocked now id m = (true, m) := by
  simp [isBlocked, h, Nat.not_lt.mpr hnow]

theorem isBlocked_reset (now : Nat) (id : String) (m : AbuseMap) (n la bu : Nat)
    (h : m id = some { count := n, lastAttempt := la, blocked := true, blockUntil := some bu })
    (hnow : bu < now) :
    isBlocked now id m =
      (false, m.set id { count := 0, lastAttempt := la, blocked := false, blockUntil := none }) := by
  simp [isBlocked, h, hnow]

/-- Repeated `trackSuspiciousActivity` calls on a single identifier, at the
given sequence of clock readings. -/
def trackManyTimes (cfg : AbuseConfig) (id : String) (ts : List Nat) (m : AbuseMap) : AbuseMap :=
  ts.foldl (fun m2 t => trackSuspiciousActivity cfg t id m2) m

theorem trackManyTimes_eq_runEvents (cfg : AbuseConfig) (id : String) (ts : List Nat) (m : AbuseMap) :
    trackManyTimes cfg id ts m = runEvents cfg (ts.map fun t => (t, id)) m := by
  simp [runEvents, trackManyTimes, List.foldl_map]

/-- C1: once `trackSuspiciousActivity` has been called at least
`threshold` times for an identifier (starting from no record), the record is
blocked with some `blockUntil`; every `isBlocked` call at a time not past
`blockUntil` returns `true` and leaves the map unchanged, and an `isBlocked`
call strictly after `blockUntil` returns `false` and resets the record to
`blocked = false` with `count = 0`. -/
theorem suspiciousActivity_lockout_cycle (cfg : AbuseConfig) (id : String) (ts : List Nat)
    (hth : 0 < cfg.threshold) (hts : cfg.threshold ≤ ts.length) :
    ∃ la bu,
      (trackManyTimes cfg id ts AbuseMap.empty) id =
        some { count := ts.length, lastAttempt := la, blocked := true, blockUntil := some bu } ∧
      (∀ now, now ≤ bu →
        isBlocked now id (trackManyTimes cfg id ts AbuseMap.empty) =
          (true, trackManyTimes cfg id ts AbuseMap.empty)) ∧
      (∀ now, bu < now →
        (isBlocked now id (trackManyTimes cfg id ts AbuseMap.empty)).1 = false ∧
        ((isBlocked now id (trackManyTimes cfg id ts AbuseMap.empty)).2) id =
          some { count := 0, lastAttempt := la, blocked := false, blockUntil := none }) := by
  have hspec := runEvents_id_spec cfg id (ts.map fun t => (t, id)) AbuseMap.empty rfl
  have hconv := trackManyTimes_eq_runEvents cfg id ts AbuseMap.empty
  have hflen : ((ts.map fun t => (t, id)).filter (fun x => x.2 == id)).length = ts.length := by
    simp [List.filter_map, Function.comp]
  rw [← hconv, hflen] at hspec
  rcases hspec with ⟨hn, _⟩ | ⟨la, _, hlt, _⟩ | ⟨la, bu, _, hsome⟩
  · omega
  · omega
  · refine ⟨la, bu, hsome, ?_, ?_⟩
    · intro now hnow
      exact isBlocked_true now id _ ts.length la bu hsome hnow
    · intro now hnow
      rw [isBlocked_reset now id _ ts.length la bu hsome hnow]
      exact ⟨rfl, by simp [AbuseMap.set]⟩

/-- Witness for C1 at the default configuration (threshold 5, lockout 15 min),
five tracking calls for one identifier. -/
theorem suspiciousActivity_lockout_cycle_witness :
    ∃ la bu,
      (trackManyTimes defaultAbuseConfig "1.2.3.4" [10, 20, 30, 40, 50] AbuseMap.empty) "1.2.3.4" =
        some { count := ([10, 20, 30, 40, 50] : List Nat).length, lastAttempt := la,
               blocked := true, blockUntil := some bu } ∧
      (∀ now, now ≤ bu →
        isBlocked now "1.2.3.4" (trackManyTimes defaultAbuseConfig "1.2.3.4" [10, 20, 30, 40, 50] AbuseMap.empty) =
          (true, trackManyTimes defaultAbuseConfig "1.2.3.4" [10, 20, 30, 40, 50] AbuseMap.empty)) ∧
      (∀ now, bu < now →
        (isBlocked now "1.2.3.4" (trackManyTimes defaultAbuseConfig "1.2.3.4" [10, 20, 30, 40, 50] AbuseMap.empty)).1 = false ∧
        ((isBlocked now "1.2.3.4" (trackManyTimes defaultAbuseConfig "1.2.3.4" [10, 20, 30, 40, 50] AbuseMap.empty)).2) "1.2.3.4" =
          some { count := 0, lastAttempt := la, blocked := false, blockUntil := none }) :=
  suspiciousActivity_lockout_cycle defaultAbuseConfig "1.2.3.4" [10, 20, 30, 40, 50]
    (by decide) (by decide)

/-! ## Token Service (src/utils/jwt.ts) -/

/-- Payload encoded by `generateAccessToken`/`generateRefreshToken`:
`{ userId, email, role }`. -/
structure JWTPayload where
  userId : String
  email : String
  role : String
deriving Repr, DecidableEq

/-- Model of a signed JWT produced by `jwt.sign`: the claims plus an expiry
(in seconds) plus a signature.  The signature is modelled as an ideal MAC:
it binds the secret, the payload and the expiry, and two signatures are
equal exactly when all three components are. -/
structure SignedToken where
  payload : JWTPayload
  exp : Nat
  sig : String × JWTPayload × Nat
deriving Repr, DecidableEq

def jwtSignature (secret : String) (p : JWTPayload) (exp : Nat) : String × JWTPayload × Nat :=
  (secret, p, exp)

/-- Model of `jwt.sign(payload, secret, { expiresIn })`: `exp = now + ttl`. -/
def jwtSign (p : JWTPayload) (secret : String) (now ttl : Nat) : SignedToken :=
  { payload := p, exp := now + ttl, sig := jwtSignature secret p (now + ttl) }

/-- The two failure kinds of the `jsonwebtoken` library:
`TokenExpiredError` and `JsonWebTokenError` (bad signature). -/
inductive JwtVerifyError where
  | tokenExpired
  | invalidSignature
deriving Repr, DecidableEq

/-- Model of `jwt.verify(token, secret)`: checks the signature against the
given secret, then checks that the expiry has not passed (the library
reports expiry when the clock is at or past `exp`). -/
def jwtVerify (tok : SignedToken) (secret : String) (now : Nat) : Except JwtVerifyError JWTPayload :=
  if tok.sig ≠ jwtSignature secret tok.payload tok.exp then .error .invalidSignature
  else if tok.exp ≤ now then .error .tokenExpired
  else .ok tok.payload

/-- Duration strings accepted by the library for `expiresIn`, converted to
seconds (the forms used in the source and spec: `"7d"`, `"30d"`, `"15m"`). -/
def ttlSeconds (s : String) : Nat :=
  let cs := s.toList
  let n := (cs.takeWhile Char.isDigit).foldl (fun acc c => acc * 10 + (c.toNat - 48)) 0
  match cs.dropWhile Char.isDigit with
  | ['d'] => n * 86400
  | ['h'] => n * 3600
  | ['m'] => n * 60
  | ['s'] => n
  | _ => n

/-- The user fields read by the token functions: `user._id.toString()`,
`user.email`, `user.role`. -/
structure JwtUser where
  id : String
  email : String
  role : String
deriving Repr, DecidableEq

/-- Embedding of `generateAccessToken(user)`: throws when `JWT_SECRET` is
absent; otherwise signs `{userId, email, role}` with
`expiresIn: process.env.JWT_EXPIRES_IN || '7d'`. -/
def generateAccessToken (jwtSecret : Option String) (jwtExpiresIn : Option String)
    (now : Nat) (u : JwtUser) : Except String SignedToken :=
  match jwtSecret with
  | none => .error "JWT_SECRET is not defined"
  | some secret =>
    .ok (jwtSign { userId := u.id, email := u.email, role := u.role } secret now
      (ttlSeconds (jwtExpiresIn.getD "7d")))

/-- Embedding of `generateRefreshToken(user)`: distinct secret, default TTL
`'30d'`. -/
def generateRefreshToken (refreshSecret : Option String) (refreshExpiresIn : Option String)
    (now : Nat) (u : JwtUser) : Except String SignedToken :=
  match refreshSecret with
  | none => .error "JWT_REFRESH_SECRET is not defined"
  | some secret =>
    .ok (jwtSign { userId := u.id, email := u.email, role := u.role } secret now
      (ttlSeconds (refreshExpiresIn.getD "30d")))

/-- Embedding of `verifyAccessToken(token)`: throws when `JWT_SECRET` is
absent; otherwise calls `jwt.verify` and collapses any verification failure
into the single error `'Invalid access token'` via the `catch` block. -/
def verifyAccessToken (jwtSecret : Option String) (now : Nat) (tok : SignedToken) :
    Except String JWTPayload :=
  match jwtSecret with
  | none => .error "JWT_SECRET is not defined"
  | some secret =>
    match jwtVerify tok secret now with
    | .ok p => .ok p
    | .error _ => .error "Invalid access token"

/-- Embedding of `verifyRefreshToken(token)`: same shape with the refresh
secret and the single error `'Invalid refresh token'`. -/
def verifyRefreshToken (refreshSecret : Option String) (now : Nat) (tok : SignedToken) :
    Except String JWTPayload :=
  match refreshSecret with
  | none => .error "JWT_REFRESH_SECRET is not defined"
  | some secret =>
    match jwtVerify tok secret now with
    | .ok p => .ok p
    | .error _ => .error "Invalid refresh token"

deriving instance DecidableEq for Except

def sampleUser : JwtUser := { id := "u1", email := "a@b.com", role := "user" }

theorem jwtVerify_sign (p : JWTPayload) (secret : String) (now ttl now2 : Nat)
    (h : now2 < now + ttl) :
    jwtVerify (jwtSign p secret now ttl) secret now2 = .ok p := by
  unfold jwtVerify jwtSign jwtSignature
  simp [Nat.not_le.mpr h]

theorem ttlSeconds_7d : ttlSeconds "7d" = 604800 := by decide

theorem ttlSeconds_15m : ttlSeconds "15m" = 900 := by decide

/-- C2 counterexample: with no TTL configured, the issued token expires
`604800` seconds (7 days) after issuance, not 15 minutes (900 seconds). -/
theorem generateAccessToken_default_ttl_not_15m :
    (generateAccessToken (some "sec") none 0 sampleUser).toOption.map SignedToken.exp
      = some 604800 ∧ (604800 : Nat) ≠ 15 * 60 := by
  constructor
  · decide
  · decide

/-- C2 amended: `generateAccessToken` fails exactly when `JWT_SECRET` is
missing; the expiry comes from the configured TTL and defaults to 7 days
(`'7d'`) when `JWT_EXPIRES_IN` is not configured; a configured `'15m'` gives
15 minutes. -/
theorem generateAccessToken_ttl_spec (secret : Option String) (env : Option String)
    (now : Nat) (u : JwtUser) :
    ((generateAccessToken secret env now u).isOk ↔ secret ≠ none) ∧
    (∀ s tok, generateAccessToken (some s) env now u = .ok tok →
      tok.exp = now + ttlSeconds (env.getD "7d")) ∧
    (∀ s tok, generateAccessToken (some s) none now u = .ok tok →
      tok.exp = now + 7 * 24 * 60 * 60) ∧
    (∀ s tok, generateAccessToken (some s) (some "15m") now u = .ok tok →
      tok.exp = now + 15 * 60) := by
  refine ⟨?_, ?_, ?_, ?_⟩
  · cases secret <;> simp [generateAccessToken, Except.isOk, Except.toBool]
  · intro s tok h
    simp only [generateAccessToken, Except.ok.injEq] at h
    rw [← h]
    rfl
  · intro s tok h
    simp only [generateAccessToken, Except.ok.injEq] at h
    rw [← h]
    simpa [jwtSign] using ttlSeconds_7d
  · intro s tok h
    simp only [generateAccessToken, Except.ok.injEq] at h
    rw [← h]
    simpa [jwtSign] using ttlSeconds_15m

/-- Witness for the amended C2 at a concrete user and secret: the token
issued with no configured TTL expires 7 days after `now = 0`. -/
theorem generateAccessToken_ttl_spec_witness :
    (jwtSign { userId := "u1", email := "a@b.com", role := "user" } "sec" 0 (ttlSeconds "7d")).exp
      = 0 + 7 * 24 * 60 * 60 :=
  (generateAccessToken_ttl_spec (some "sec") none 0 sampleUser).2.2.1 "sec" _ rfl

/-- C3: verifying a token produced by `generateAccessToken` before its
expiry, with the same configured secret, succeeds and returns the encoded
`userId`/`email`/`role` of the user. -/
theorem accessToken_roundtrip (s : String) (env : Option String) (now now2 : Nat)
    (u : JwtUser) (tok : SignedToken)
    (hgen : generateAccessToken (some s) env now u = .ok tok)
    (hexp : now2 < tok.exp) :
    verifyAccessToken (some s) now2 tok
      = .ok { userId := u.id, email := u.email, role := u.role } := by
  have htok : tok = jwtSign { userId := u.id, email := u.email, role := u.role } s now
      (ttlSeconds (env.getD "7d")) := by
    simpa [generateAccessToken] using hgen.symm
  subst htok
  have hexp2 : now2 < now + ttlSeconds (env.getD "7d") := by simpa [jwtSign] using hexp
  simp [verifyAccessToken, jwtVerify_sign _ _ _ _ _ hexp2]

/-- Witness for C3: a concrete token issued at time 0 with secret `"k"`
verifies at time 100 and returns the encoded claims. -/
theorem accessToken_roundtrip_witness :
    verifyAccessToken (some "k") 100
        (jwtSign { userId := "u1", email := "a@b.com", role := "user" } "k" 0 (ttlSeconds "7d"))
      = .ok { userId := "u1", email := "a@b.com", role := "user" } :=
  accessToken_roundtrip "k" none 0 100 sampleUser _ rfl (by decide)

def expiredSampleToken : SignedToken :=
  jwtSign { userId := "u1", email := "a@b.com", role := "user" } "k" 0 10

def tamperedSampleToken : SignedToken :=
  jwtSign { userId := "u1", email := "a@b.com", role := "user" } "other" 0 1000

/-- C4 counterexample: at time 100 with secret `"k"`, `expiredSampleToken`
fails underneath for expiry and `tamperedSampleToken` for signature
mismatch, yet `verifyAccessToken` (and `verifyRefreshToken`) return the
very same error value for both, so the caller cannot tell the two causes
apart. -/
theorem verifyAccessToken_collapses_error_kinds :
    jwtVerify expiredSampleToken "k" 100 = .error .tokenExpired ∧
    jwtVerify tamperedSampleToken "k" 100 = .error .invalidSignature ∧
    verifyAccessToken (some "k") 100 expiredSampleToken
      = verifyAccessToken (some "k") 100 tamperedSampleToken ∧
    verifyRefreshToken (some "k") 100 expiredSampleToken
      = verifyRefreshToken (some "k") 100 tamperedSampleToken := by
  decide

/-- C4 amended: whenever the underlying `jwt.verify` fails — whether for
expiry or for signature mismatch — `verifyAccessToken` fails with the single
error `'Invalid access token'` and `verifyRefreshToken` with the single
error `'Invalid refresh token'`; the two failure causes are not
distinguishable by the caller. -/
theorem verifyToken_single_error_kind (secret : String) (now : Nat) (tok : SignedToken)
    (e : JwtVerifyError) (h : jwtVerify tok secret now = .error e) :
    verifyAccessToken (some secret) now tok = .error "Invalid access token" ∧
    verifyRefreshToken (some secret) now tok = .error "Invalid refresh token" := by
  simp [verifyAccessToken, verifyRefreshToken, h]

/-- Witness for the amended C4 at the concrete expired token. -/
theorem verifyToken_single_error_kind_witness :
    verifyAccessToken (some "k") 100 expiredSampleToken = .error "Invalid access token" ∧
    verifyRefreshToken (some "k") 100 expiredSampleToken = .error "Invalid refresh token" :=
  verifyToken_single_error_kind "k" 100 expiredSampleToken .tokenExpired (by decide)

/-! ## OAuth Linker (src/config/passport.ts, verify callbacks) -/

structure SocialAccounts where
  google : Option String
  github : Option String
deriving Repr, DecidableEq

/-- The user-record fields read or written by the OAuth verify callbacks.
OAuth-created users get no password hash, modelled by `hasPassword`. -/
structure OAuthUser where
  email : String
  firstName : String
  lastName : String
  avatar : Option String
  socialAccounts : SocialAccounts
  isEmailVerified : Bool
  role : String
  hasPassword : Bool
deriving Repr, DecidableEq

/-- The provider profile fields the callbacks consult: `profile.id`,
`profile.emails`, `profile.photos`, `profile.name.givenName/familyName`
(Google) and `profile.displayName` (GitHub). -/
structure OAuthProfile where
  id : String
  emails : List String
  photos : List String
  givenName : Option String
  familyName : Option String
  displayName : Option String
deriving Repr, DecidableEq

/-- Persist a modified user document (`user.save()`): replace the record
with the same email. -/
def saveUser (db : List OAuthUser) (u : OAuthUser) : List OAuthUser :=
  db.map fun v => if v.email == u.email then u else v

/-- Embedding of the Google strategy verify callback: extract the primary
email (error when absent), look the user up by email; when found set
`user.socialAccounts.google = profile.id`, backfill the avatar when the
user has none and the profile carries a photo, and save; when not found
create a new user with the google id, `isEmailVerified = true`, role
`'user'` and no password. -/
def googleVerifyCallback (db : List OAuthUser) (profile : OAuthProfile) :
    Except String (OAuthUser × List OAuthUser) :=
  match profile.emails.head? with
  | none => .error "Email not found in Google profile"
  | some email =>
    match db.find? (fun u => u.email == email) with
    | some user =>
      let user1 := { user with
        socialAccounts := { user.socialAccounts with google := some profile.id } }
      let user2 :=
        if user1.avatar = none ∧ profile.photos.head? ≠ none then
          { user1 with avatar := profile.photos.head? }
        else user1
      .ok (user2, saveUser db user2)
    | none =>
      let newUser : OAuthUser :=
        { email := email
          firstName := profile.givenName.getD ""
          lastName := profile.familyName.getD ""
          avatar := profile.photos.head?
          socialAccounts := { google := some profile.id, github := none }
          isEmailVerified := true
          role := "user"
          hasPassword := false }
      .ok (newUser, db ++ [newUser])

/-- Embedding of the GitHub strategy verify callback: identical shape, the
`github` provider id, and names derived from `profile.displayName`. -/
def githubVerifyCallback (db : List OAuthUser) (profile : OAuthProfile) :
    Except String (OAuthUser × List OAuthUser) :=
  match profile.emails.head? with
  | none => .error "Email not found in GitHub profile"
  | some email =>
    match db.find? (fun u => u.email == email) with
    | some user =>
      let user1 := { user with
        socialAccounts := { user.socialAccounts with github := some profile.id } }
      let user2 :=
        if user1.avatar = none ∧ profile.photos.head? ≠ none then
          { user1 with avatar := profile.photos.head? }
        else user1
      .ok (user2, saveUser db user2)
    | none =>
      let newUser : OAuthUser :=
        { email := email
          firstName := match profile.displayName with
            | none => ""
            | some d => (d.splitOn " ").headD ""
          lastName := match profile.displayName with
            | none => ""
            | some d => String.intercalate " " ((d.splitOn " ").drop 1)
          avatar := profile.photos.head?
          socialAccounts := { google := none, github := some profile.id }
          isEmailVerified := true
          role := "user"
          hasPassword := false }
      .ok (newUser, db ++ [newUser])

/-- An existing account that already has a linked google id. -/
def linkedUser : OAuthUser :=
  { email := "a@b.com", firstName := "A", lastName := "B", avatar := none,
    socialAccounts := { google := some "old-id", github := none },
    isEmailVerified := true, role := "user", hasPassword := true }

/-- A later Google login for the same email with a different provider id. -/
def relinkProfile : OAuthProfile :=
  { id := "new-id", emails := ["a@b.com"], photos := [],
    givenName := some "A", familyName := some "B", displayName := some "A B" }

/-- C5 counterexample: the user already linked to google id `"old-id"` comes
out of the linking step carrying the new profile's id `"new-id"` — the
stored provider id is overwritten, not kept. -/
theorem oauth_link_overwrites_provider_id :
    linkedUser.socialAccounts.google = some "old-id" ∧
    (googleVerifyCallback [linkedUser] relinkProfile).toOption.map
        (fun r => r.1.socialAccounts.google) = some (some "new-id") ∧
    some "new-id" ≠ some ("old-id" : String) := by
  decide

/-- C5 amended: for every OAuth login whose profile email resolves to an
existing user, the linking step always sets the stored provider id to the
id from the new profile (last-writer-wins), for google and github alike. -/
theorem oauth_link_lastWriterWins (db : List OAuthUser) (p : OAuthProfile) (email : String)
    (user : OAuthUser)
    (he : p.emails.head? = some email)
    (hf : db.find? (fun u => u.email == email) = some user) :
    (∃ u2 db2, googleVerifyCallback db p = .ok (u2, db2) ∧
      u2.socialAccounts.google = some p.id) ∧
    (∃ u2 db2, githubVerifyCallback db p = .ok (u2, db2) ∧
      u2.socialAccounts.github = some p.id) := by
  constructor
  · simp only [googleVerifyCallback, he, hf]
    refine ⟨_, _, rfl, ?_⟩
    split <;> rfl
  · simp only [githubVerifyCallback, he, hf]
    refine ⟨_, _, rfl, ?_⟩
    split <;> rfl

/-- Witness for the amended C5 at the concrete relink scenario. -/
theorem oauth_link_lastWriterWins_witness :
    (∃ u2 db2, googleVerifyCallback [linkedUser] relinkProfile = .ok (u2, db2) ∧
      u2.socialAccounts.google = some relinkProfile.id) ∧
    (∃ u2 db2, githubVerifyCallback [linkedUser] relinkProfile = .ok (u2, db2) ∧
      u2.socialAccounts.github = some relinkProfile.id) :=
  oauth_link_lastWriterWins [linkedUser] relinkProfile "a@b.com" linkedUser
    (by decide) (by decide)

/-- An existing password account whose email was never verified. -/
def unverifiedUser : OAuthUser :=
  { email := "a@b.com", firstName := "A", lastName := "B", avatar := none,
    socialAccounts := { google := none, github := none },
    isEmailVerified := false, role := "user", hasPassword := true }

/-- C6 counterexample: linking a Google login onto an existing unverified
password account leaves `isEmailVerified = false`, both on the returned
user and in the persisted store — the existing-user branch never marks the
email verified. -/
theorem oauth_link_does_not_verify_email :
    (googleVerifyCallback [unverifiedUser] relinkProfile).toOption.map
        (fun r => r.1.isEmailVerified) = some false ∧
    (googleVerifyCallback [unverifiedUser] relinkProfile).toOption.map
        (fun r => r.2.map OAuthUser.isEmailVerified) = some [false] := by
  decide

/-- C6 amended: the linking step leaves an existing user's
`isEmailVerified` flag unchanged; only a newly created OAuth user gets
`isEmailVerified = true`. -/
theorem oauth_verified_flag_spec (db : List OAuthUser) (p : OAuthProfile) (email : String)
    (he : p.emails.head? = some email) :
    (∀ user, db.find? (fun u => u.email == email) = some user →
      (∃ u2 db2, googleVerifyCallback db p = .ok (u2, db2) ∧
        u2.isEmailVerified = user.isEmailVerified) ∧
      (∃ u2 db2, githubVerifyCallback db p = .ok (u2, db2) ∧
        u2.isEmailVerified = user.isEmailVerified)) ∧
    (db.find? (fun u => u.email == email) = none →
      (∃ u2 db2, googleVerifyCallback db p = .ok (u2, db2) ∧ u2.isEmailVerified = true) ∧
      (∃ u2 db2, githubVerifyCallback db p = .ok (u2, db2) ∧ u2.isEmailVerified = true)) := by
  constructor
  · intro user hf
    constructor
    · simp only [googleVerifyCallback, he, hf]
      refine ⟨_, _, rfl, ?_⟩
      split <;> rfl
    · simp only [githubVerifyCallback, he, hf]
      refine ⟨_, _, rfl, ?_⟩
      split <;> rfl
  · intro hf
    constructor
    · simp only [googleVerifyCallback, he, hf]
      exact ⟨_, _, rfl, rfl⟩
    · simp only [githubVerifyCallback, he, hf]
      exact ⟨_, _, rfl, rfl⟩

/-- Witness for the amended C6: linking onto the unverified account keeps
the flag false; a login with an unknown email creates a verified user. -/
theorem oauth_verified_flag_spec_witness :
    ((∃ u2 db2, googleVerifyCallback [unverifiedUser] relinkProfile = .ok (u2, db2) ∧
        u2.isEmailVerified = unverifiedUser.isEmailVerified) ∧
      (∃ u2 db2, githubVerifyCallback [unverifiedUser] relinkProfile = .ok (u2, db2) ∧
        u2.isEmailVerified = unverifiedUser.isEmailVerified)) ∧
    ((∃ u2 db2, googleVerifyCallback [] relinkProfile = .ok (u2, db2) ∧
        u2.isEmailVerified = true) ∧
      (∃ u2 db2, githubVerifyCallback [] relinkProfile = .ok (u2, db2) ∧
        u2.isEmailVerified = true)) :=
  ⟨(oauth_verified_flag_spec [unverifiedUser] relinkProfile "a@b.com" (by decide)).1
      unverifiedUser (by decide),
   (oauth_verified_flag_spec [] relinkProfile "a@b.com" (by decide)).2 rfl⟩

/-! ## Auth controller (authController, among the unnamed source files) -/

/-- The user-record fields the login / forgot-password handlers touch.  The
password field stores the bcrypt hash (absent for OAuth-only accounts). -/
structure CtrlUser where
  id : String
  email : String
  password : Option String
  firstName : String
  lastName : String
  role : String
  isEmailVerified : Bool
  passwordResetToken : Option String
  passwordResetExpires : Option Nat
deriving Repr, DecidableEq

/-- Modelled from the spec: bcrypt hashing as used by the User model
(src/models/User.ts is referenced by the controller but is not among the
sources).  An abstract injective digest stands in for the bcrypt hash. -/
def bcryptHash (pw : String) : String := "bcrypt$" ++ pw

/-- Modelled from the spec: `user.comparePassword(candidate)` from the User
model — bcrypt-compare of the candidate against the stored hash. -/
def comparePassword (u : CtrlUser) (candidate : String) : Bool :=
  match u.password with
  | some h => bcryptHash candidate == h
  | none => false

/-- Modelled from the spec: the SHA-256 digest stored for one-time tokens
(only the digest is persisted, never the raw value). -/
def sha256digest (raw : String) : String := "sha256$" ++ raw

/-- Modelled from the spec: `user.generatePasswordResetToken()` from the
User model — draws a random raw value (passed in explicitly here), stores
its SHA-256 digest and a one-hour expiry on the user, and returns the raw
value for the email link. -/
def generatePasswordResetToken (now : Nat) (raw : String) (u : CtrlUser) : String × CtrlUser :=
  (raw, { u with passwordResetToken := some (sha256digest raw),
                 passwordResetExpires := some (now + 3600000) })

/-- Modelled from the spec: `user.clearPasswordResetToken()` from the User
model. -/
def clearPasswordResetToken (u : CtrlUser) : CtrlUser :=
  { u with passwordResetToken := none, passwordResetExpires := none }

/-- JavaScript `String.prototype.toLowerCase()` on the ASCII range,
character by character. -/
def jsToLower (s : String) : String := ⟨s.data.map Char.toLower⟩

/-- Whitespace characters recognised by the JavaScript string functions. -/
def isJsSpace (c : Char) : Bool :=
  c == ' ' || c == '\t' || c == '\n' || c == '\r' || c == '\x0b' || c == '\x0c'

/-- JavaScript `String.prototype.trim()`: strip whitespace at both ends. -/
def jsTrim (s : String) : String :=
  ⟨((s.data.dropWhile isJsSpace).reverse.dropWhile isJsSpace).reverse⟩

/-- The JSON body the error handler renders: status code, `success` flag and
`message`. -/
structure HttpResponse where
  status : Nat
  success : Bool
  message : String
deriving Repr, DecidableEq

def saveCtrlUser (db : List CtrlUser) (u : CtrlUser) : List CtrlUser :=
  db.map fun v => if v.email == u.email then u else v

def forgotGenericMessage : String :=
  "If an account with that email exists, a password reset link has been sent."

/-- Embedding of the `forgotPassword` handler: look the user up by
lower-cased email; when absent respond 200 with the generic message; when
present generate and save a reset token, then try to send the email —
responding 200 with the same generic message on success, but clearing the
token and throwing `AppError('Email could not be sent', 500)` when the
dispatch fails.  `sendOk` models whether `sendPasswordReset` succeeds and
`raw` the random token value. -/
def forgotPassword (db : List CtrlUser) (email : String) (sendOk : Bool)
    (raw : String) (now : Nat) : HttpResponse × List CtrlUser :=
  match db.find? (fun u => u.email == jsToLower email) with
  | none =>
    ({ status := 200, success := true, message := forgotGenericMessage }, db)
  | some user =>
    let (_, u1) := generatePasswordResetToken now raw user
    let db1 := saveCtrlUser db u1
    if sendOk then
      ({ status := 200, success := true, message := forgotGenericMessage }, db1)
    else
      let u2 := clearPasswordResetToken u1
      let db2 := saveCtrlUser db1 u2
      ({ status := 500, success := false, message := "Email could not be sent" }, db2)

def resetUserA : CtrlUser :=
  { id := "1", email := "a@b.com", password := some (bcryptHash "Str0ng!Pass"),
    firstName := "A", lastName := "B", role := "user", isEmailVerified := true,
    passwordResetToken := none, passwordResetExpires := none }

/-- C7 counterexample: when the reset-email dispatch fails, the handler
responds 500 for an existing email but 200 for a non-existent one — the
status does differ between the two cases. -/
theorem forgotPassword_status_differs_on_send_failure :
    (forgotPassword [resetUserA] "a@b.com" false "tok" 0).1.status = 500 ∧
    (forgotPassword [resetUserA] "nobody@b.com" false "tok" 0).1.status = 200 ∧
    (500 : Nat) ≠ 200 := by
  decide

/-- C7 amended: the response is 200 with the identical generic message
whenever the submitted email matches no user (email dispatch is then never
attempted) or the email dispatch succeeds; but when the email matches an
existing user and the dispatch fails, the handler responds 500 with
`'Email could not be sent'`, a different status than for a non-existent
email. -/
theorem forgotPassword_responses (db : List CtrlUser) (e1 e2 raw : String) (now : Nat)
    (u : CtrlUser)
    (h1 : db.find? (fun v => v.email == jsToLower e1) = none)
    (h2 : db.find? (fun v => v.email == jsToLower e2) = some u) :
    (∀ sendOk, (forgotPassword db e1 sendOk raw now).1 =
      { status := 200, success := true, message := forgotGenericMessage }) ∧
    ((forgotPassword db e2 true raw now).1 =
      { status := 200, success := true, message := forgotGenericMessage }) ∧
    ((forgotPassword db e2 false raw now).1 =
      { status := 500, success := false, message := "Email could not be sent" }) := by
  refine ⟨?_, ?_, ?_⟩ <;> simp [forgotPassword, h1, h2, generatePasswordResetToken]

/-- Witness for the amended C7 at a concrete store. -/
theorem forgotPassword_responses_witness :
    (∀ sendOk, (forgotPassword [resetUserA] "nobody@b.com" sendOk "tok" 0).1 =
      { status := 200, success := true, message := forgotGenericMessage }) ∧
    ((forgotPassword [resetUserA] "a@b.com" true "tok" 0).1 =
      { status := 200, success := true, message := forgotGenericMessage }) ∧
    ((forgotPassword [resetUserA] "a@b.com" false "tok" 0).1 =
      { status := 500, success := false, message := "Email could not be sent" }) :=
  forgotPassword_responses [resetUserA] "nobody@b.com" "a@b.com" "tok" 0 resetUserA
    (by decide) (by decide)

/-- Embedding of the `login` handler: normalize the email, look the user up;
on missing user or failed bcrypt compare, track the failure under both the
`email:<normalized>` key and the bare IP key and respond
401 `'Invalid email or password'`; on an unverified account respond 401 with
the distinct verification message; otherwise respond 200. -/
def login (cfg : AbuseConfig) (db : List CtrlUser) (email password ip : String)
    (now : Nat) (st : AbuseMap) : HttpResponse × AbuseMap :=
  let normalizedEmail := jsTrim (jsToLower email)
  match db.find? (fun u => u.email == normalizedEmail) with
  | none =>
    let st1 := trackSuspiciousActivity cfg now ("email:" ++ normalizedEmail) st
    let st2 := trackSuspiciousActivity cfg now ip st1
    ({ status := 401, success := false, message := "Invalid email or password" }, st2)
  | some user =>
    if comparePassword user password = false then
      let st1 := trackSuspiciousActivity cfg now ("email:" ++ normalizedEmail) st
      let st2 := trackSuspiciousActivity cfg now ip st1
      ({ status := 401, success := false, message := "Invalid email or password" }, st2)
    else if user.isEmailVerified = false then
      ({ status := 401, success := false,
         message := "Please verify your email before logging in. Check your inbox for a verification link." }, st)
    else
      ({ status := 200, success := true, message := "Login successful" }, st)

/-- C9: noninterference of the failed-credentials branch — a login whose
email matches no user and a login whose email matches a user but whose
password is wrong produce identical responses: 401 with
`'Invalid email or password'` in both runs. -/
theorem login_noninterference (cfg : AbuseConfig) (db1 db2 : List CtrlUser)
    (e1 p1 ip1 e2 p2 ip2 : String) (now1 now2 : Nat) (st1 st2 : AbuseMap) (u : CtrlUser)
    (h1 : db1.find? (fun v => v.email == jsTrim (jsToLower e1)) = none)
    (h2 : db2.find? (fun v => v.email == jsTrim (jsToLower e2)) = some u)
    (h3 : comparePassword u p2 = false) :
    (login cfg db1 e1 p1 ip1 now1 st1).1 = (login cfg db2 e2 p2 ip2 now2 st2).1 ∧
    (login cfg db1 e1 p1 ip1 now1 st1).1 =
      { status := 401, success := false, message := "Invalid email or password" } := by
  constructor <;> simp [login, h1, h2, h3]

def wrongPwUser : CtrlUser :=
  { id := "2", email := "a@b.com", password := some (bcryptHash "Correct1!"),
    firstName := "A", lastName := "B", role := "user", isEmailVerified := true,
    passwordResetToken := none, passwordResetExpires := none }

/-- Witness for C9: an unknown email versus a wrong password for an existing
account give the same concrete 401 response. -/
theorem login_noninterference_witness :
    (login defaultAbuseConfig [] "ghost@b.com" "x" "1.1.1.1" 5 AbuseMap.empty).1 =
      (login defaultAbuseConfig [wrongPwUser] "a@b.com" "wrong" "2.2.2.2" 9 AbuseMap.empty).1 ∧
    (login defaultAbuseConfig [] "ghost@b.com" "x" "1.1.1.1" 5 AbuseMap.empty).1 =
      { status := 401, success := false, message := "Invalid email or password" } :=
  login_noninterference defaultAbuseConfig [] [wrongPwUser] "ghost@b.com" "x" "1.1.1.1"
    "a@b.com" "wrong" "2.2.2.2" 5 9 AbuseMap.empty AbuseMap.empty wrongPwUser
    (by decide) (by decide) (by decide)

/-- One login attempt: submitted email and password, and the clock reading
of the request. -/
structure LoginAttempt where
  email : String
  password : String
  time : Nat

/-- The credential check of the login handler fails: no user matches the
normalized email, or the bcrypt compare rejects the password. -/
def credentialsFail (db : List CtrlUser) (email password : String) : Prop :=
  match db.find? (fun u => u.email == jsTrim (jsToLower email)) with
  | none => True
  | some u => comparePassword u password = false

/-- A sequence of login attempts from one IP, threading the abuse map. -/
def loginMany (cfg : AbuseConfig) (db : List CtrlUser) (ip : String)
    (attempts : List LoginAttempt) (st : AbuseMap) : AbuseMap :=
  attempts.foldl (fun st2 a => (login cfg db a.email a.password ip a.time st2).2) st

theorem login_failed_tracks (cfg : AbuseConfig) (db : List CtrlUser)
    (e p ip : String) (now : Nat) (st : AbuseMap) (hf : credentialsFail db e p) :
    (login cfg db e p ip now st).2 =
      trackSuspiciousActivity cfg now ip
        (trackSuspiciousActivity cfg now ("email:" ++ jsTrim (jsToLower e)) st) := by
  unfold credentialsFail at hf
  unfold login
  cases hfind : db.find? (fun u => u.email == jsTrim (jsToLower e)) with
  | none => simp [hfind]
  | some u =>
    rw [hfind] at hf
    simp [hfind, hf]

theorem loginMany_eq_runEvents (cfg : AbuseConfig) (db : List CtrlUser) (ip : String)
    (attempts : List LoginAttempt) (st : AbuseMap)
    (hfail : ∀ a ∈ attempts, credentialsFail db a.email a.password) :
    loginMany cfg db ip attempts st =
      runEvents cfg
        (attempts.flatMap fun a => [(a.time, "email:" ++ jsTrim (jsToLower a.email)), (a.time, ip)])
        st := by
  induction attempts generalizing st with
  | nil => rfl
  | cons a as ih =>
    have hfa : credentialsFail db a.email a.password := hfail a (List.mem_cons_self a as)
    have hrest : ∀ b ∈ as, credentialsFail db b.email b.password :=
      fun b hb => hfail b (List.mem_cons_of_mem a hb)
    show loginMany cfg db ip as (login cfg db a.email a.password ip a.time st).2 = _
    rw [login_failed_tracks cfg db a.email a.password ip a.time st hfa, ih _ hrest]
    rfl

theorem bind_filter_ip_length (ip : String) (attempts : List LoginAttempt)
    (hip : ∀ a ∈ attempts, ("email:" ++ jsTrim (jsToLower a.email)) ≠ ip) :
    ((attempts.flatMap fun a => [(a.time, "email:" ++ jsTrim (jsToLower a.email)), (a.time, ip)]).filter
      (fun x => x.2 == ip)).length = attempts.length := by
  induction attempts with
  | nil => rfl
  | cons a as ih =>
    have h1 : ("email:" ++ jsTrim (jsToLower a.email)) ≠ ip := hip a (List.mem_cons_self a as)
    have h2 : ∀ b ∈ as, ("email:" ++ jsTrim (jsToLower b.email)) ≠ ip :=
      fun b hb => hip b (List.mem_cons_of_mem a hb)
    simp [List.flatMap_cons, List.filter_append, h1, ih h2]

/-- C10: every failed credential check tracks the failure under both the
`email:<normalized>` key and the bare IP key; consequently, threshold-many
failed logins from one IP — across arbitrary emails, none of whose keys
collides with the IP key — leave the IP's record blocked with `count` equal
to the number of attempts, and `isBlocked` answers true for the IP until
`blockUntil` passes. -/
theorem failed_logins_block_ip (cfg : AbuseConfig) (db : List CtrlUser) (ip : String)
    (attempts : List LoginAttempt)
    (hth : 0 < cfg.threshold)
    (hfail : ∀ a ∈ attempts, credentialsFail db a.email a.password)
    (hip : ∀ a ∈ attempts, ("email:" ++ jsTrim (jsToLower a.email)) ≠ ip)
    (hn : cfg.threshold ≤ attempts.length) :
    (∀ e p now st, credentialsFail db e p →
      (login cfg db e p ip now st).2 =
        trackSuspiciousActivity cfg now ip
          (trackSuspiciousActivity cfg now ("email:" ++ jsTrim (jsToLower e)) st)) ∧
    ∃ la bu,
      (loginMany cfg db ip attempts AbuseMap.empty) ip =
        some { count := attempts.length, lastAttempt := la, blocked := true, blockUntil := some bu } ∧
      ∀ now, now ≤ bu → (isBlocked now ip (loginMany cfg db ip attempts AbuseMap.empty)).1 = true := by
  constructor
  · intro e p now st hf
    exact login_failed_tracks cfg db e p ip now st hf
  · rw [loginMany_eq_runEvents cfg db ip attempts AbuseMap.empty hfail]
    have hspec := runEvents_id_spec cfg ip
      (attempts.flatMap fun a => [(a.time, "email:" ++ jsTrim (jsToLower a.email)), (a.time, ip)])
      AbuseMap.empty rfl
    rw [bind_filter_ip_length ip attempts hip] at hspec
    rcases hspec with ⟨hz, _⟩ | ⟨la, _, hlt, _⟩ | ⟨la, bu, _, hsome⟩
    · omega
    · omega
    · refine ⟨la, bu, hsome, ?_⟩
      intro now hnow
      rw [isBlocked_true now ip _ attempts.length la bu hsome hnow]

def fiveAttempts : List LoginAttempt :=
  [⟨"a@b.com", "x", 1⟩, ⟨"b@b.com", "x", 2⟩, ⟨"c@b.com", "x", 3⟩,
   ⟨"d@b.com", "x", 4⟩, ⟨"e@b.com", "x", 5⟩]

/-- Witness for C10 at the default configuration: five failed logins for
five different emails from one IP block that IP. -/
theorem failed_logins_block_ip_witness :
    (∀ e p now st, credentialsFail [] e p →
      (login defaultAbuseConfig [] e p "9.9.9.9" now st).2 =
        trackSuspiciousActivity defaultAbuseConfig now "9.9.9.9"
          (trackSuspiciousActivity defaultAbuseConfig now ("email:" ++ jsTrim (jsToLower e)) st)) ∧
    ∃ la bu,
      (loginMany defaultAbuseConfig [] "9.9.9.9" fiveAttempts AbuseMap.empty) "9.9.9.9" =
        some { count := fiveAttempts.length, lastAttempt := la,
               blocked := true, blockUntil := some bu } ∧
      ∀ now, now ≤ bu →
        (isBlocked now "9.9.9.9"
          (loginMany defaultAbuseConfig [] "9.9.9.9" fiveAttempts AbuseMap.empty)).1 = true :=
  failed_logins_block_ip defaultAbuseConfig [] "9.9.9.9" fiveAttempts
    (by decide) (fun a _ => trivial) (by decide) (by decide)

/-! ## Input Defense (src/middleware/errorHandler.ts, `sanitizeInput`) -/

/-- Case-insensitive prefix test of a pattern against a character list. -/
def startsWithCI : List Char → List Char → Bool
  | [], _ => true
  | _ :: _, [] => false
  | p :: ps, c :: cs => (Char.toLower c == Char.toLower p) && startsWithCI ps cs

/-- Generic global remove-on-match scanner, modelling
`str.replace(/pattern/gi, '')`: at each position, when `matchAt` reports a
match of the given positive length, the match is deleted and scanning
resumes right after it — the emitted output is never rescanned within the
same pass, exactly as the JavaScript global replace behaves.  The fuel
argument makes the recursion structural; it is instantiated with the string
length, which the position jumps can never exceed. -/
def scanRemove (matchAt : List Char → Option Nat) : Nat → List Char → List Char
  | _, [] => []
  | 0, s => s
  | fuel + 1, c :: cs =>
    match matchAt (c :: cs) with
    | some len => scanRemove matchAt fuel (cs.drop (len - 1))
    | none => c :: scanRemove matchAt fuel cs

def removeAll (matchAt : List Char → Option Nat) (s : List Char) : List Char :=
  scanRemove matchAt s.length s

/-- Matcher for a non-empty literal pattern, case-insensitively. -/
def literalMatchAt (pat : List Char) (s : List Char) : Option Nat :=
  if pat ≠ [] ∧ startsWithCI pat s then some pat.length else none

/-- One `.replace(/literal/gi, '')` pass. -/
def removeAllCI (pat : List Char) (s : List Char) : List Char :=
  removeAll (literalMatchAt pat) s

/-- Line terminators that the regex `.` does not match in JavaScript. -/
def isLineTerminator (c : Char) : Bool :=
  c == '\n' || c == '\r' || c.toNat == 8232 || c.toNat == 8233

def openScriptTag : List Char := "<script".toList

def closeScriptTag : List Char := "</script>".toList

/-- The lazy `.*?<\/script>` tail: the least offset at which the closing tag
starts, crossing only non-line-terminator characters. -/
def findCloseScript (s : List Char) : Option Nat :=
  if startsWithCI closeScriptTag s then some 0
  else
    match s with
    | [] => none
    | c :: cs =>
      if isLineTerminator c then none
      else (findCloseScript cs).map (fun n => n + 1)

/-- Match the regex `<script[^>]*>.*?<\/script>` (flags `gi`) at the head of
the list, returning the match length: `[^>]*` takes the run of non-`'>'`
characters and must be followed by `'>'`; `.*?` lazily reaches the first
closing tag. -/
def matchScriptAt (s : List Char) : Option Nat :=
  if startsWithCI openScriptTag s then
    let rest1 := s.drop openScriptTag.length
    let attrs := rest1.takeWhile (fun c => c != '>')
    match rest1.drop attrs.length with
    | '>' :: rest3 =>
      match findCloseScript rest3 with
      | some j => some (openScriptTag.length + attrs.length + 1 + j + closeScriptTag.length)
      | none => none
    | _ => none
  else none

def removeScriptTags (s : List Char) : List Char :=
  removeAll matchScriptAt s

/-- Word characters of the regex `\w`. -/
def isWordChar (c : Char) : Bool := c.isAlphanum || c == '_'

/-- Match the regex `on\w+\s*=` (flags `gi`) at the head of the list:
`on`, at least one word character (greedily), optional whitespace, `=`. -/
def matchOnHandlerAt (s : List Char) : Option Nat :=
  if startsWithCI ['o', 'n'] s then
    let rest := s.drop 2
    let w := (rest.takeWhile isWordChar).length
    if w = 0 then none
    else
      let rest2 := rest.drop w
      let sp := (rest2.takeWhile isJsSpace).length
      match rest2.drop sp with
      | '=' :: _ => some (2 + w + sp + 1)
      | _ => none
  else none

def removeOnHandlers (s : List Char) : List Char :=
  removeAll matchOnHandlerAt s

def trimChars (s : List Char) : List Char :=
  ((s.dropWhile isJsSpace).reverse.dropWhile isJsSpace).reverse

/-- The string branch of `sanitizeObject`: the thirteen `.replace(..., '')`
passes in source order, then `.trim()`. -/
def sanitizeChars (s : List Char) : List Char :=
  let s1 := removeAllCI "$where".toList s
  let s2 := removeAllCI "$ne".toList s1
  let s3 := removeAllCI "$gt".toList s2
  let s4 := removeAllCI "$lt".toList s3
  let s5 := removeAllCI "$regex".toList s4
  let s6 := removeAllCI "$expr".toList s5
  let s7 := removeAllCI "$jsonSchema".toList s6
  let s8 := removeAllCI "$mod".toList s7
  let s9 := removeAllCI "$text".toList s8
  let s10 := removeAllCI "$search".toList s9
  let s11 := removeAllCI "javascript:".toList s10
  let s12 := removeScriptTags s11
  let s13 := removeOnHandlers s12
  trimChars s13

mutual
inductive JVal : Type where
  | jstr : String → JVal
  | jnum : Int → JVal
  | jbool : Bool → JVal
  | jnull : JVal
  | jarr : JArr → JVal
  | jobj : JObj → JVal
inductive JArr : Type where
  | anil : JArr
  | acons : JVal → JArr → JArr
inductive JObj : Type where
  | onil : JObj
  | ocons : String → JVal → JObj → JObj
end

/-- Characters kept by the key cleaner `key.replace(/[^a-zA-Z0-9_.-]/g, '')`. -/
def allowedKeyChar (c : Char) : Bool :=
  (97 ≤ c.toNat && c.toNat ≤ 122) || (65 ≤ c.toNat && c.toNat ≤ 90) ||
    (48 ≤ c.toNat && c.toNat ≤ 57) || c == '_' || c == '.' || c == '-'

def cleanKey (k : String) : String := ⟨k.data.filter allowedKeyChar⟩

mutual
/-- Embedding of the recursive `sanitizeObject`: strings go through the
replacement chain, arrays are mapped element-wise, objects have each key
cleaned (the entry is dropped when the cleaned key is empty, exactly as the
source skips it; a duplicate cleaned key is kept as a later entry, matching
the source's last-assignment-wins object write) and each value sanitized;
other primitives pass through. -/
def sanitizeVal : JVal → JVal
  | .jstr s => .jstr ⟨sanitizeChars s.data⟩
  | .jnum n => .jnum n
  | .jbool b => .jbool b
  | .jnull => .jnull
  | .jarr a => .jarr (sanitizeArr a)
  | .jobj o => .jobj (sanitizeObj o)
def sanitizeArr : JArr → JArr
  | .anil => .anil
  | .acons v rest => .acons (sanitizeVal v) (sanitizeArr rest)
def sanitizeObj : JObj → JObj
  | .onil => .onil
  | .ocons k v rest =>
    if (cleanKey k).length ≠ 0 then .ocons (cleanKey k) (sanitizeVal v) (sanitizeObj rest)
    else sanitizeObj rest
end

mutual
/-- Every object key, recursively, consists only of `[A-Za-z0-9_.-]`. -/
def allKeysVal : JVal → Bool
  | .jstr _ => true
  | .jnum _ => true
  | .jbool _ => true
  | .jnull => true
  | .jarr a => allKeysArr a
  | .jobj o => allKeysObj o
def allKeysArr : JArr → Bool
  | .anil => true
  | .acons v rest => allKeysVal v && allKeysArr rest
def allKeysObj : JObj → Bool
  | .onil => true
  | .ocons k v rest => k.data.all allowedKeyChar && allKeysVal v && allKeysObj rest
end

/-- Case-insensitive substring test. -/
def containsCI (pat : List Char) : List Char → Bool
  | [] => startsWithCI pat []
  | c :: cs => startsWithCI pat (c :: cs) || containsCI pat cs

theorem cleanKey_all_allowed (k : String) :
    (cleanKey k).data.all allowedKeyChar = true := by
  simp only [cleanKey, List.all_eq_true]
  intro c hc
  exact (List.mem_filter.mp hc).2

mutual
theorem keysClean_val : (v : JVal) → allKeysVal (sanitizeVal v) = true
  | .jstr _ => rfl
  | .jnum _ => rfl
  | .jbool _ => rfl
  | .jnull => rfl
  | .jarr a => by
      have h := keysClean_arr a
      simp [sanitizeVal, allKeysVal, h]
  | .jobj o => by
      have h := keysClean_obj o
      simp [sanitizeVal, allKeysVal, h]
theorem keysClean_arr : (a : JArr) → allKeysArr (sanitizeArr a) = true
  | .anil => rfl
  | .acons v rest => by
      have h1 := keysClean_val v
      have h2 := keysClean_arr rest
      simp [sanitizeArr, allKeysArr, h1, h2]
theorem keysClean_obj : (o : JObj) → allKeysObj (sanitizeObj o) = true
  | .onil => rfl
  | .ocons k v rest => by
      have h1 := keysClean_val v
      have h2 := keysClean_obj rest
      by_cases hc : (cleanKey k).length ≠ 0
      · simp [sanitizeObj, hc, allKeysObj, cleanKey_all_allowed, h1, h2]
      · simp [sanitizeObj, hc, h2]
end

/-- C8 counterexample: sanitizing the string `"$n$gte"` removes the `$gt`
occurrence and thereby splices the remaining characters into `"$ne"` — the
output still contains the forbidden NoSQL operator `$ne`, so the sanitizer
output is not free of the listed operator substrings. -/
theorem sanitize_string_can_retain_operator :
    sanitizeVal (.jstr "$n$gte") = .jstr "$ne" ∧
    containsCI "$ne".toList ("$ne" : String).data = true := by
  constructor
  · simp only [sanitizeVal, JVal.jstr.injEq]
    decide
  · decide

/-- C8 amended: the recursive sanitizer guarantees the structural parts of
the claim — every object key in the output consists only of characters in
`[A-Za-z0-9_.-]`, and arrays and objects are sanitized element-wise — while
each string receives one global in-order removal pass of each listed
pattern, which does not guarantee absence of the forbidden substrings in
the output. -/
theorem sanitizeInput_keys_and_recursion :
    (∀ v : JVal, allKeysVal (sanitizeVal v) = true) ∧
    (∀ (v : JVal) (rest : JArr),
      sanitizeVal (.jarr (.acons v rest)) = .jarr (.acons (sanitizeVal v) (sanitizeArr rest))) ∧
    (∀ s : String, sanitizeVal (.jstr s) = .jstr ⟨sanitizeChars s.data⟩) := by
  refine ⟨keysClean_val, ?_, ?_⟩
  · intro v rest
    simp [sanitizeVal, sanitizeArr]
  · intro s
    simp [sanitizeVal]

end AuthCore
